import Mathlib

/-!
Shallow embedding of the fraud-scoring pipeline of
`src/Panel.py` (functions `preprocess_input` and `predict_fraud`).

Modelling choices:
* Python floats are embedded as exact rationals (`ℚ`); the spec's
  arithmetic (rule deltas, clamp bounds, threshold) is stated over exact
  numerals, so `ℚ` is the faithful idealisation.
* sqlite tables become Lean lists of record structures; the `SELECT ...
  ORDER BY date DESC LIMIT 1` query becomes a fold picking a matching row
  of maximal `date` (sqlite TEXT ordering = lexicographic string order).
* Fallible Python operations become `Option`-valued: `float(x)` / `int(x)`
  coercion, `LabelEncoder.transform` (raises on an unseen label), and
  `model.predict_proba` (the opaque model artifact, which the code wraps
  in a bare `try/except`).
* A raised exception that escapes `predict_fraud` is an explicit `Outcome`
  constructor rather than a Lean exception.
-/

namespace FraudDetection

/-- A raw dynamically-typed value as sqlite / the UI hands it to
`predict_fraud`: either a numeric value (on which Python `float()` and
`int()` coercion succeed, `int()` truncating toward zero) or a
non-numeric value on which both coercions raise `ValueError`. -/
inductive Raw
  | num (q : ℚ)
  | nonNumeric (s : String)
deriving DecidableEq, Repr

/-- Python `float(x)`: succeeds exactly on numeric values. -/
def Raw.toFloat : Raw → Option ℚ
  | .num q => some q
  | .nonNumeric _ => none

/-- Python `int(x)`: succeeds on numeric values, truncating toward zero
(`Int.tdiv` is toward-zero division). -/
def Raw.toInt : Raw → Option ℤ
  | .num q => some (Int.tdiv q.num q.den)
  | .nonNumeric _ => none

/-- Python `s.lower()` (ASCII case folding, which is all the rule
strings `"cancer"`, `"heart disease"`, `"private"` need): lowercase every
character. -/
def lower (s : String) : String := ⟨s.data.map Char.toLower⟩

/-- Lexicographic order on character lists, the order sqlite's default
BINARY collation gives `ORDER BY date DESC` on TEXT dates. -/
def strLt : List Char → List Char → Bool
  | [], [] => false
  | [], _ :: _ => true
  | _ :: _, [] => false
  | a :: as, b :: bs => if a < b then true else if a = b then strLt as bs else false

/-- A fitted `LabelEncoder`: a finite mapping from category strings to
integer codes.  `transform` returns the code when the label was seen at
fit time and fails (raises) otherwise — embedded as `Option`. -/
abbrev Encoder : Type := List (String × ℕ)

/-- `LabelEncoder.transform([s])[0]`: the code of `s`, or failure for an
unseen label. -/
def Encoder.transform (e : Encoder) (s : String) : Option ℕ :=
  (e.find? (fun p => p.1 = s)).map Prod.snd

/-- The `label_encoders` pickle: one fitted encoder per categorical
column (`"Diagnosis"` and `"HospitalType"`). -/
structure Encoders where
  diagnosis : Encoder
  hospitalType : Encoder

/-- The single-row feature frame built by `preprocess_input`
(columns `ClaimAmount, Age, Diagnosis, HospitalType, PreviousClaims`). -/
structure Features where
  claimAmount : ℚ
  age : ℤ
  diagnosis : ℕ
  hospitalType : ℕ
  previousClaims : ℤ
deriving DecidableEq, Repr

/-- `preprocess_input` (Panel.py lines 83–95): encode the two categorical
fields, falling back to code `0` when `transform` raises (the bare
`try/except` branches), and pass the numeric fields through. -/
def preprocess_input (encs : Encoders) (claim_amount : ℚ) (age : ℤ)
    (diagnosis : String) (hospital_type : String) (previous_claims : ℤ) :
    Features :=
  let diagnosis_encoded := (encs.diagnosis.transform diagnosis).getD 0
  let hospital_type_encoded := (encs.hospitalType.transform hospital_type).getD 0
  { claimAmount := claim_amount
    age := age
    diagnosis := diagnosis_encoded
    hospitalType := hospital_type_encoded
    previousClaims := previous_claims }

/-- One row of the sqlite `customer_data` table (the columns
`predict_fraud` touches; `age` and `previous_claims` are kept raw because
sqlite is dynamically typed and the code re-coerces them with `int()`). -/
structure CustomerRow where
  user_id : ℤ
  customer_id : String
  date : String
  age : Raw
  name : String
  previous_claims : Raw
deriving DecidableEq, Repr

/-- One row of the sqlite `predictions` table as inserted by
`predict_fraud` (the auto `id` and default `timestamp` are omitted; the
code inserts the raw, un-coerced field values). -/
structure PredictionRow where
  user_id : ℤ
  customer_id : String
  name : String
  claim_amount : Raw
  age : Raw
  diagnosis : String
  hospital_type : String
  previous_claims : Raw
  prediction : String
  probability : ℚ
deriving DecidableEq, Repr

/-- The mutable database state `predict_fraud` can read or write. -/
structure State where
  customer_data : List CustomerRow
  predictions : List PredictionRow
deriving DecidableEq, Repr

/-- The profile query of Panel.py lines 99–104:
`SELECT age, previous_claims FROM customer_data WHERE user_id=? AND
customer_id=? AND name=? ORDER BY date DESC LIMIT 1` — among the matching
rows, one with maximal `date` (ties resolved to the earlier row, an
arbitrary but fixed choice standing in for sqlite's unspecified tie
order). -/
def lookupProfile (db : List CustomerRow) (uid : ℤ) (cid : String)
    (nm : String) : Option CustomerRow :=
  (db.filter (fun r => r.user_id = uid ∧ r.customer_id = cid ∧ r.name = nm)).foldl
    (fun best r =>
      match best with
      | none => some r
      | some b => if strLt b.date.data r.date.data then some r else some b)
    none

/-- The business-rule block of Panel.py lines 126–148: four independent
additive adjustments on the base probability. -/
def applyRules (baseProb : ℚ) (claim_amount : ℚ) (previous_claims : ℤ)
    (diagnosis : String) (hospital_type : String) : ℚ :=
  let p1 := if claim_amount > 300000 then baseProb + 10/100 else baseProb
  let p2 := if previous_claims > 5 then p1 + 15/100 else p1
  let p3 := if lower diagnosis ∈ ["cancer", "heart disease"] then p2 + 20/100 else p2
  if lower hospital_type = "private" then p3 + 10/100 else p3

/-- Panel.py line 151: `max(0, min(1, prediction_prob))`. -/
def clamp01 (p : ℚ) : ℚ := max 0 (min 1 p)

/-- Panel.py line 154: `"Fraud" if prediction_prob > 0.35 else "Legitimate"`. -/
def verdictOf (p : ℚ) : String := if p > 35/100 then "Fraud" else "Legitimate"

/-- What a call to `predict_fraud` does from the caller's point of view. -/
inductive Outcome
  | profileNotFound
  | invalidClaimData
  | sinkFailure
  | ok (verdict : String) (probability : ℚ)
deriving DecidableEq, Repr

/-- `predict_fraud` (Panel.py lines 97–168).

Parameters: `encs` and `model` are the two immutable artifacts
(`label_encoders.pkl` and `naive_bayes.pkl`; `model f = none` embeds a
raising `predict_proba`, which line 123's bare `except` replaces by
`0.0`); `sinkOk` says whether the audit `INSERT`/`commit` of lines
157–166 succeeds.

Outcomes: a missing profile returns the tuple
`("Error: Customer profile not found", 0.0)` without touching the
database (`Outcome.profileNotFound`); a `ValueError` from
`float(claim_amount)` / `int(age)` / `int(previous_claims)` on lines
114–118 propagates out of the function before anything is scored or
stored (`Outcome.invalidClaimData`); an exception from the audit insert
propagates after the verdict was computed but before the `return`
(`Outcome.sinkFailure`); otherwise the verdict and clamped probability
are returned and the prediction row is appended. -/
def predict_fraud (encs : Encoders) (model : Features → Option ℚ)
    (sinkOk : Bool) (st : State) (user_id : ℤ) (customer_id : String)
    (name : String) (diagnosis : String) (hospital_type : String)
    (claim_amount : Raw) : Outcome × State :=
  match lookupProfile st.customer_data user_id customer_id name with
  | none => (.profileNotFound, st)
  | some row =>
    match claim_amount.toFloat, row.age.toInt, row.previous_claims.toInt with
    | some ca, some age, some previous_claims =>
      let input_data :=
        preprocess_input encs ca age diagnosis hospital_type previous_claims
      let prediction_prob := (model input_data).getD 0
      let adjusted :=
        applyRules prediction_prob ca previous_claims diagnosis hospital_type
      let prob := clamp01 adjusted
      let result := verdictOf prob
      if sinkOk then
        (.ok result prob,
          { st with
            predictions := st.predictions ++
              [{ user_id := user_id
                 customer_id := customer_id
                 name := name
                 claim_amount := claim_amount
                 age := row.age
                 diagnosis := diagnosis
                 hospital_type := hospital_type
                 previous_claims := row.previous_claims
                 prediction := result
                 probability := prob }] })
      else
        (.sinkFailure, st)
    | _, _, _ => (.invalidClaimData, st)

/-- Concrete fitted encoders for witnesses: the mappings a `LabelEncoder`
would produce on a tiny training set. -/
def demoEncs : Encoders :=
  { diagnosis := [("Cancer", 0), ("Flu", 1)]
    hospitalType := [("Government", 0), ("Private", 1)] }

/-- A concrete customer-history row for witnesses. -/
def demoRow : CustomerRow :=
  { user_id := 1
    customer_id := "CU1"
    date := "2024-01-01"
    age := Raw.num 40
    name := "Alice"
    previous_claims := Raw.num 6 }

/-- A concrete database state for witnesses: one history row, an empty
predictions table. -/
def demoState : State := { customer_data := [demoRow], predictions := [] }

/-- A concrete prediction row for witnesses that need a non-empty
predictions table. -/
def demoPrediction : PredictionRow :=
  { user_id := 9
    customer_id := "Z"
    name := "Zed"
    claim_amount := Raw.num 1
    age := Raw.num 2
    diagnosis := "d"
    hospital_type := "h"
    previous_claims := Raw.num 3
    prediction := "Fraud"
    probability := 1 }

/-- The same history table as `demoState` but a different predictions
table, to exhibit that the outcome does not depend on the audit store. -/
def demoStateB : State :=
  { customer_data := [demoRow], predictions := [demoPrediction] }

/-! Helper lemmas shared by the claim theorems. -/

/-- The rule block only ever adds non-negative deltas to the base. -/
theorem applyRules_ge_base (b ca : ℚ) (pc : ℤ) (diag hosp : String) :
    b ≤ applyRules b ca pc diag hosp := by
  unfold applyRules
  split_ifs <;> linarith

/-- The clamp never produces a negative probability. -/
theorem clamp01_nonneg (p : ℚ) : 0 ≤ clamp01 p := le_max_left 0 _

/-- The clamp never produces a probability above one. -/
theorem clamp01_le_one (p : ℚ) : clamp01 p ≤ 1 :=
  max_le (by norm_num) (min_le_left 1 p)

/-- Clamping a value at least `b` stays at least `min 1 b`. -/
theorem min_one_le_clamp01 (b a : ℚ) (hba : b ≤ a) : min 1 b ≤ clamp01 a :=
  le_trans (min_le_min le_rfl hba) (le_max_right 0 (min 1 a))

/-- Unfolding a call on which every step succeeds: with a found profile,
successful numeric coercions and a working audit sink, `predict_fraud`
returns the thresholded verdict with the clamped adjusted probability and
appends exactly one prediction row. -/
theorem predict_fraud_eq_of_found (encs : Encoders)
    (model : Features → Option ℚ) (st : State) (uid : ℤ)
    (cid nm diag hosp : String) (camt : Raw) (row : CustomerRow)
    (ca : ℚ) (a pc : ℤ)
    (hrow : lookupProfile st.customer_data uid cid nm = some row)
    (hca : camt.toFloat = some ca)
    (ha : row.age.toInt = some a)
    (hpc : row.previous_claims.toInt = some pc) :
    predict_fraud encs model true st uid cid nm diag hosp camt =
      (Outcome.ok
        (verdictOf (clamp01 (applyRules
          ((model (preprocess_input encs ca a diag hosp pc)).getD 0)
          ca pc diag hosp)))
        (clamp01 (applyRules
          ((model (preprocess_input encs ca a diag hosp pc)).getD 0)
          ca pc diag hosp)),
       { st with predictions := st.predictions ++
          [{ user_id := uid
             customer_id := cid
             name := nm
             claim_amount := camt
             age := row.age
             diagnosis := diag
             hospital_type := hosp
             previous_claims := row.previous_claims
             prediction := verdictOf (clamp01 (applyRules
               ((model (preprocess_input encs ca a diag hosp pc)).getD 0)
               ca pc diag hosp))
             probability := clamp01 (applyRules
               ((model (preprocess_input encs ca a diag hosp pc)).getD 0)
               ca pc diag hosp) }] }) := by
  unfold predict_fraud
  simp only [hrow, hca, ha, hpc]
  exact if_pos trivial

/-- Deconstructing a successful call: the profile was found, all
coercions succeeded, the sink worked, the returned probability is the
clamped rule-adjusted base probability, and the verdict is its
thresholding. -/
theorem predict_fraud_ok_elim (encs : Encoders)
    (model : Features → Option ℚ) (sinkOk : Bool) (st : State) (uid : ℤ)
    (cid nm diag hosp : String) (camt : Raw) (v : String) (p : ℚ)
    (hok : (predict_fraud encs model sinkOk st uid cid nm diag hosp camt).1 =
      Outcome.ok v p) :
    ∃ row ca a pc,
      lookupProfile st.customer_data uid cid nm = some row ∧
      camt.toFloat = some ca ∧ row.age.toInt = some a ∧
      row.previous_claims.toInt = some pc ∧ sinkOk = true ∧
      p = clamp01 (applyRules
        ((model (preprocess_input encs ca a diag hosp pc)).getD 0)
        ca pc diag hosp) ∧
      v = verdictOf p := by
  unfold predict_fraud at hok
  split at hok
  · simp at hok
  · rename_i row hl
    split at hok
    · rename_i ca a pc hca ha hpc
      split at hok
      · rename_i hsink
        dsimp only at hok
        rw [Outcome.ok.injEq] at hok
        obtain ⟨hv, hp⟩ := hok
        exact ⟨row, ca, a, pc, hl, hca, ha, hpc, hsink, hp.symm, by rw [← hv, ← hp]⟩
      · simp at hok
    · simp at hok

/-- Scenario shared by several claims: amount 350000, previous claims 6,
diagnosis "Cancer", hospital "Private" (all four rules fire) and a base
model probability `b`: the call returns the thresholded verdict on
`clamp01 (b + 0.55)`. -/
theorem scenario_all_rules (encs : Encoders) (model : Features → Option ℚ)
    (st : State) (uid : ℤ) (cid nm : String) (row : CustomerRow) (a : ℤ)
    (b : ℚ)
    (hrow : lookupProfile st.customer_data uid cid nm = some row)
    (ha : row.age.toInt = some a)
    (hpc : row.previous_claims.toInt = some 6)
    (hm : model (preprocess_input encs 350000 a "Cancer" "Private" 6) = some b) :
    (predict_fraud encs model true st uid cid nm "Cancer" "Private"
        (Raw.num 350000)).1 =
      Outcome.ok (verdictOf (clamp01 (b + 55/100))) (clamp01 (b + 55/100)) := by
  rw [predict_fraud_eq_of_found encs model st uid cid nm "Cancer" "Private"
    (Raw.num 350000) row 350000 a 6 hrow rfl ha hpc]
  dsimp only
  rw [hm, Option.getD_some]
  have h3 : lower "Cancer" ∈ ["cancer", "heart disease"] := by decide
  have h4 : lower "Private" = "private" := by decide
  simp only [applyRules]
  rw [if_pos (by norm_num : (350000:ℚ) > 300000),
    if_pos (by norm_num : (6:ℤ) > 5), if_pos h3, if_pos h4]
  have hsum : b + 10/100 + 15/100 + 20/100 + 10/100 = b + 55/100 := by ring
  rw [hsum]

/-- C1: the claim asserts that the four rule deltas sum to 0.60 and the
returned probability is 0.65; on the code the deltas 0.10 + 0.15 + 0.20 +
0.10 sum to 0.55, so on this concrete all-rules-firing call with base
probability 0.05 the returned probability is 0.60, not 0.65. -/
theorem C1_counterexample :
    (predict_fraud demoEncs (fun _ => some (5/100)) true demoState
        1 "CU1" "Alice" "Cancer" "Private" (Raw.num 350000)).1 =
      Outcome.ok "Fraud" (60/100) ∧
    Outcome.ok "Fraud" ((60:ℚ)/100) ≠ Outcome.ok "Fraud" (65/100) := by
  constructor
  · rw [scenario_all_rules demoEncs (fun _ => some (5/100)) demoState
      1 "CU1" "Alice" demoRow 40 (5/100) (by decide) (by decide) (by decide) rfl]
    have hc : clamp01 (5/100 + 55/100) = 60/100 := by
      unfold clamp01
      rw [min_eq_right (by norm_num), max_eq_right (by norm_num)]
      norm_num
    rw [hc]
    unfold verdictOf
    rw [if_pos (by norm_num : (60:ℚ)/100 > 35/100)]
  · simp only [ne_eq, Outcome.ok.injEq]
    norm_num

/-- C1 (amended): for a scoring call with claim amount 350000, previous
claims 6, diagnosis "Cancer", hospital type "Private" and a base model
probability of 0.05, all four rules fire, adding 0.10 + 0.15 + 0.20 +
0.10 = 0.55, so the returned probability is 0.60 and the verdict is
Fraud. -/
theorem C1_all_rules_example (encs : Encoders) (model : Features → Option ℚ)
    (st : State) (uid : ℤ) (cid nm : String) (row : CustomerRow) (a : ℤ)
    (hrow : lookupProfile st.customer_data uid cid nm = some row)
    (ha : row.age.toInt = some a)
    (hpc : row.previous_claims.toInt = some 6)
    (hm : model (preprocess_input encs 350000 a "Cancer" "Private" 6) =
      some (5/100)) :
    (predict_fraud encs model true st uid cid nm "Cancer" "Private"
        (Raw.num 350000)).1 = Outcome.ok "Fraud" (60/100) := by
  rw [scenario_all_rules encs model st uid cid nm row a (5/100) hrow ha hpc hm]
  have hc : clamp01 (5/100 + 55/100) = 60/100 := by
    unfold clamp01
    rw [min_eq_right (by norm_num), max_eq_right (by norm_num)]
    norm_num
  rw [hc]
  unfold verdictOf
  rw [if_pos (by norm_num : (60:ℚ)/100 > 35/100)]

/-- Witness for C1 (amended) at a concrete database, model and claim. -/
theorem C1_all_rules_example_witness :
    (predict_fraud demoEncs (fun _ => some (5/100)) true demoState
        1 "CU1" "Alice" "Cancer" "Private" (Raw.num 350000)).1 =
      Outcome.ok "Fraud" (60/100) :=
  C1_all_rules_example demoEncs (fun _ => some (5/100)) demoState
    1 "CU1" "Alice" demoRow 40 (by decide) (by decide) (by decide) rfl

/-- C2: every successful scoring call returns a probability in [0, 1],
whatever the base probability and whichever rules fire; and on the
all-rules scenario with base probability 0.9 the returned probability is
exactly 1. -/
theorem C2_probability_in_unit_interval :
    (∀ (encs : Encoders) (model : Features → Option ℚ) (sinkOk : Bool)
        (st : State) (uid : ℤ) (cid nm diag hosp : String) (camt : Raw)
        (v : String) (p : ℚ),
      (predict_fraud encs model sinkOk st uid cid nm diag hosp camt).1 =
        Outcome.ok v p →
      0 ≤ p ∧ p ≤ 1) ∧
    (∀ (encs : Encoders) (model : Features → Option ℚ) (st : State)
        (uid : ℤ) (cid nm : String) (row : CustomerRow) (a : ℤ),
      lookupProfile st.customer_data uid cid nm = some row →
      row.age.toInt = some a →
      row.previous_claims.toInt = some 6 →
      model (preprocess_input encs 350000 a "Cancer" "Private" 6) =
        some (9/10) →
      (predict_fraud encs model true st uid cid nm "Cancer" "Private"
          (Raw.num 350000)).1 = Outcome.ok "Fraud" 1) := by
  constructor
  · intro encs model sinkOk st uid cid nm diag hosp camt v p hok
    obtain ⟨_, _, _, _, _, _, _, _, _, hp, _⟩ :=
      predict_fraud_ok_elim encs model sinkOk st uid cid nm diag hosp camt
        v p hok
    rw [hp]
    exact ⟨clamp01_nonneg _, clamp01_le_one _⟩
  · intro encs model st uid cid nm row a hrow ha hpc hm
    rw [scenario_all_rules encs model st uid cid nm row a (9/10) hrow ha hpc hm]
    have hc : clamp01 (9/10 + 55/100) = 1 := by
      unfold clamp01; rw [min_eq_left (by norm_num), max_eq_right (by norm_num)]
    rw [hc]
    unfold verdictOf
    rw [if_pos (by norm_num : (1:ℚ) > 35/100)]

/-- Witness for C2: the concrete base-0.9 all-rules call clamps to
exactly 1, which the general bound confirms lies in [0, 1]. -/
theorem C2_probability_in_unit_interval_witness :
    (predict_fraud demoEncs (fun _ => some (9/10)) true demoState
        1 "CU1" "Alice" "Cancer" "Private" (Raw.num 350000)).1 =
      Outcome.ok "Fraud" 1 ∧
    (0 ≤ (1:ℚ) ∧ (1:ℚ) ≤ 1) := by
  have hok := C2_probability_in_unit_interval.2 demoEncs (fun _ => some (9/10))
    demoState 1 "CU1" "Alice" demoRow 40 (by decide) (by decide) (by decide) rfl
  exact ⟨hok, C2_probability_in_unit_interval.1 demoEncs (fun _ => some (9/10))
    true demoState 1 "CU1" "Alice" "Cancer" "Private" (Raw.num 350000)
    "Fraud" 1 hok⟩

/-- C3: on every successful scoring call the verdict is "Fraud" exactly
when the returned clamped probability is strictly greater than 0.35; at
exactly 0.35 the verdict is "Legitimate". -/
theorem C3_fraud_iff_above_threshold (encs : Encoders)
    (model : Features → Option ℚ) (sinkOk : Bool) (st : State) (uid : ℤ)
    (cid nm diag hosp : String) (camt : Raw) (v : String) (p : ℚ)
    (hok : (predict_fraud encs model sinkOk st uid cid nm diag hosp camt).1 =
      Outcome.ok v p) :
    (v = "Fraud" ↔ 35/100 < p) ∧
    (p = 35/100 → v = "Legitimate") ∧
    (35/100 < p → v = "Fraud") := by
  obtain ⟨_, _, _, _, _, _, _, _, _, _, hv⟩ :=
    predict_fraud_ok_elim encs model sinkOk st uid cid nm diag hosp camt
      v p hok
  subst hv
  unfold verdictOf
  refine ⟨?_, ?_, ?_⟩
  · constructor
    · intro hf
      by_contra hnot
      rw [if_neg (by exact fun hlt => hnot hlt)] at hf
      exact absurd hf (by decide)
    · intro hlt
      rw [if_pos hlt]
  · intro hp
    rw [if_neg (by rw [hp]; exact lt_irrefl _)]
  · intro hlt
    rw [if_pos hlt]

/-- Witness for C3 at a concrete successful call returning probability
0.57 with verdict "Fraud". -/
theorem C3_fraud_iff_above_threshold_witness :
    ("Fraud" = "Fraud" ↔ (35:ℚ)/100 < 57/100) := by
  have hok : (predict_fraud demoEncs (fun _ => some (2/100)) true demoState
      1 "CU1" "Alice" "Cancer" "Private" (Raw.num 350000)).1 =
      Outcome.ok "Fraud" (57/100) := by
    rw [scenario_all_rules demoEncs (fun _ => some (2/100)) demoState
      1 "CU1" "Alice" demoRow 40 (2/100) (by decide) (by decide) (by decide) rfl]
    have hc : clamp01 (2/100 + 55/100) = 57/100 := by
      unfold clamp01
      rw [min_eq_right (by norm_num), max_eq_right (by norm_num)]
      norm_num
    rw [hc]
    unfold verdictOf
    rw [if_pos (by norm_num : (57:ℚ)/100 > 35/100)]
  exact (C3_fraud_iff_above_threshold demoEncs (fun _ => some (2/100)) true
    demoState 1 "CU1" "Alice" "Cancer" "Private" (Raw.num 350000)
    "Fraud" (57/100) hok).1

/-- C4: when no customer-history row matches (user scope, customer id,
name), the call returns the profile-not-found outcome and leaves the
database — in particular the predictions table — unchanged. -/
theorem C4_profile_not_found_aborts (encs : Encoders)
    (model : Features → Option ℚ) (sinkOk : Bool) (st : State) (uid : ℤ)
    (cid nm diag hosp : String) (camt : Raw)
    (hnone : lookupProfile st.customer_data uid cid nm = none) :
    predict_fraud encs model sinkOk st uid cid nm diag hosp camt =
      (Outcome.profileNotFound, st) := by
  unfold predict_fraud
  rw [hnone]

/-- Witness for C4: scoring against an empty history store. -/
theorem C4_profile_not_found_aborts_witness :
    predict_fraud demoEncs (fun _ => some (5/100)) true
      { customer_data := [], predictions := [] }
      1 "CU1" "Alice" "Flu" "Government" (Raw.num 1000) =
      (Outcome.profileNotFound, { customer_data := [], predictions := [] }) :=
  C4_profile_not_found_aborts demoEncs (fun _ => some (5/100)) true
    { customer_data := [], predictions := [] }
    1 "CU1" "Alice" "Flu" "Government" (Raw.num 1000) rfl

/-- C5: scoring is deterministic and touches nothing but the audit
store: two calls with identical claim fields, artifacts and customer
history — even from states whose predictions tables differ — return the
same outcome, and the call never modifies the customer-history table. -/
theorem C5_deterministic_pure_function (encs : Encoders)
    (model : Features → Option ℚ) (sinkOk : Bool) (s₁ s₂ : State)
    (uid : ℤ) (cid nm diag hosp : String) (camt : Raw)
    (hcd : s₁.customer_data = s₂.customer_data) :
    (predict_fraud encs model sinkOk s₁ uid cid nm diag hosp camt).1 =
      (predict_fraud encs model sinkOk s₂ uid cid nm diag hosp camt).1 ∧
    (predict_fraud encs model sinkOk s₁ uid cid nm diag hosp camt).2.customer_data =
      s₁.customer_data := by
  obtain ⟨cd, preds₁⟩ := s₁
  obtain ⟨cd₂, preds₂⟩ := s₂
  obtain rfl : cd = cd₂ := hcd
  constructor <;>
  · unfold predict_fraud
    dsimp only
    repeat' split
    all_goals rfl

/-- Witness for C5 on two concrete states sharing a history table but
holding different predictions tables. -/
theorem C5_deterministic_pure_function_witness :
    (predict_fraud demoEncs (fun _ => some (5/100)) true demoState
        1 "CU1" "Alice" "Cancer" "Private" (Raw.num 350000)).1 =
      (predict_fraud demoEncs (fun _ => some (5/100)) true demoStateB
        1 "CU1" "Alice" "Cancer" "Private" (Raw.num 350000)).1 ∧
    (predict_fraud demoEncs (fun _ => some (5/100)) true demoState
        1 "CU1" "Alice" "Cancer" "Private" (Raw.num 350000)).2.customer_data =
      demoState.customer_data :=
  C5_deterministic_pure_function demoEncs (fun _ => some (5/100)) true demoState
    demoStateB 1 "CU1" "Alice" "Cancer" "Private" (Raw.num 350000) rfl

/-- C6: a category string absent from a fitted encoder's mapping never
fails the call: it encodes to the fallback code 0 (for the diagnosis and
for the hospital-type encoder alike), and a scoring call with such an
unseen diagnosis still proceeds to a verdict. -/
theorem C6_unseen_category_falls_back_to_zero :
    (∀ (encs : Encoders) (ca : ℚ) (a : ℤ) (diag hosp : String) (pc : ℤ),
      encs.diagnosis.transform diag = none →
      (preprocess_input encs ca a diag hosp pc).diagnosis = 0) ∧
    (∀ (encs : Encoders) (ca : ℚ) (a : ℤ) (diag hosp : String) (pc : ℤ),
      encs.hospitalType.transform hosp = none →
      (preprocess_input encs ca a diag hosp pc).hospitalType = 0) ∧
    (∀ (encs : Encoders) (model : Features → Option ℚ) (st : State)
        (uid : ℤ) (cid nm diag hosp : String) (camt : Raw)
        (row : CustomerRow) (ca : ℚ) (a pc : ℤ),
      encs.diagnosis.transform diag = none →
      lookupProfile st.customer_data uid cid nm = some row →
      camt.toFloat = some ca →
      row.age.toInt = some a →
      row.previous_claims.toInt = some pc →
      ∃ v p, (predict_fraud encs model true st uid cid nm diag hosp camt).1 =
        Outcome.ok v p) := by
  refine ⟨?_, ?_, ?_⟩
  · intro encs ca a diag hosp pc hmiss
    simp [preprocess_input, hmiss]
  · intro encs ca a diag hosp pc hmiss
    simp [preprocess_input, hmiss]
  · intro encs model st uid cid nm diag hosp camt row ca a pc _ hrow hca ha hpc
    rw [predict_fraud_eq_of_found encs model st uid cid nm diag hosp camt
      row ca a pc hrow hca ha hpc]
    exact ⟨_, _, rfl⟩

/-- Witness for C6: "Migraine" is unseen by the demo diagnosis encoder
("Helipad" by the hospital encoder); encoding yields 0 and the call still
returns a verdict. -/
theorem C6_unseen_category_falls_back_to_zero_witness :
    (preprocess_input demoEncs 1000 40 "Migraine" "Government" 6).diagnosis = 0 ∧
    (preprocess_input demoEncs 1000 40 "Flu" "Helipad" 6).hospitalType = 0 ∧
    ∃ v p, (predict_fraud demoEncs (fun _ => some (5/100)) true demoState
      1 "CU1" "Alice" "Migraine" "Government" (Raw.num 1000)).1 =
        Outcome.ok v p :=
  ⟨C6_unseen_category_falls_back_to_zero.1 demoEncs 1000 40 "Migraine"
      "Government" 6 rfl,
   C6_unseen_category_falls_back_to_zero.2.1 demoEncs 1000 40 "Flu" "Helipad"
      6 rfl,
   C6_unseen_category_falls_back_to_zero.2.2 demoEncs (fun _ => some (5/100))
      demoState 1 "CU1" "Alice" "Migraine" "Government" (Raw.num 1000)
      demoRow 1000 40 6 rfl (by decide) rfl (by decide) (by decide)⟩

/-- C7: a failing probability model never aborts the call: the pipeline
behaves exactly as if the model had returned base probability 0, and on a
call where everything else succeeds the rules, clamp, threshold and audit
insert still run (one row is appended and a verdict is returned). -/
theorem C7_model_failure_defaults_to_zero :
    (∀ (encs : Encoders) (model : Features → Option ℚ) (sinkOk : Bool)
        (st : State) (uid : ℤ) (cid nm diag hosp : String) (camt : Raw),
      (∀ f, model f = none) →
      predict_fraud encs model sinkOk st uid cid nm diag hosp camt =
        predict_fraud encs (fun _ => some 0) sinkOk st uid cid nm diag
          hosp camt) ∧
    (∀ (encs : Encoders) (model : Features → Option ℚ) (st : State)
        (uid : ℤ) (cid nm diag hosp : String) (camt : Raw)
        (row : CustomerRow) (ca : ℚ) (a pc : ℤ),
      (∀ f, model f = none) →
      lookupProfile st.customer_data uid cid nm = some row →
      camt.toFloat = some ca →
      row.age.toInt = some a →
      row.previous_claims.toInt = some pc →
      ∃ v p, (predict_fraud encs model true st uid cid nm diag hosp camt).1 =
          Outcome.ok v p ∧
        (predict_fraud encs model true st uid cid nm diag hosp
            camt).2.predictions.length = st.predictions.length + 1) := by
  constructor
  · intro encs model sinkOk st uid cid nm diag hosp camt hfail
    unfold predict_fraud
    simp only [hfail, Option.getD_none, Option.getD_some]
  · intro encs model st uid cid nm diag hosp camt row ca a pc _ hrow hca ha hpc
    rw [predict_fraud_eq_of_found encs model st uid cid nm diag hosp camt
      row ca a pc hrow hca ha hpc]
    exact ⟨_, _, rfl, by simp⟩

/-- Witness for C7 with an always-failing model artifact. -/
theorem C7_model_failure_defaults_to_zero_witness :
    predict_fraud demoEncs (fun _ => none) true demoState
        1 "CU1" "Alice" "Flu" "Government" (Raw.num 1000) =
      predict_fraud demoEncs (fun _ => some 0) true demoState
        1 "CU1" "Alice" "Flu" "Government" (Raw.num 1000) ∧
    ∃ v p, (predict_fraud demoEncs (fun _ => none) true demoState
        1 "CU1" "Alice" "Flu" "Government" (Raw.num 1000)).1 =
        Outcome.ok v p ∧
      (predict_fraud demoEncs (fun _ => none) true demoState
        1 "CU1" "Alice" "Flu" "Government"
        (Raw.num 1000)).2.predictions.length =
        demoState.predictions.length + 1 :=
  ⟨C7_model_failure_defaults_to_zero.1 demoEncs (fun _ => none) true demoState
      1 "CU1" "Alice" "Flu" "Government" (Raw.num 1000) (fun _ => rfl),
   C7_model_failure_defaults_to_zero.2 demoEncs (fun _ => none) demoState
      1 "CU1" "Alice" "Flu" "Government" (Raw.num 1000) demoRow 1000 40 6
      (fun _ => rfl) (by decide) rfl (by decide) (by decide)⟩

/-- C8 is false on the code: the audit `INSERT` of Panel.py lines
157–166 is not wrapped in any `try/except` inside `predict_fraud`, so on
this concrete call where the sink fails after the verdict was computed
the exception propagates to the caller and no verdict or probability is
returned. -/
theorem C8_counterexample :
    predict_fraud demoEncs (fun _ => some (5/100)) false demoState
        1 "CU1" "Alice" "Flu" "Government" (Raw.num 1000) =
      (Outcome.sinkFailure, demoState) ∧
    ¬ ∃ v p, (predict_fraud demoEncs (fun _ => some (5/100)) false demoState
        1 "CU1" "Alice" "Flu" "Government" (Raw.num 1000)).1 =
      Outcome.ok v p := by
  constructor
  · rfl
  · rintro ⟨v, p, h⟩
    rw [show (predict_fraud demoEncs (fun _ => some (5/100)) false demoState
      1 "CU1" "Alice" "Flu" "Government" (Raw.num 1000)).1 =
        Outcome.sinkFailure from rfl] at h
    exact Outcome.noConfusion h

/-- C8 (amended): if the audit append fails after the verdict has been
computed, the exception propagates to the caller — the call yields the
sink-failure outcome instead of the verdict, and the database state is
unchanged. -/
theorem C8_sink_failure_raises (encs : Encoders)
    (model : Features → Option ℚ) (st : State) (uid : ℤ)
    (cid nm diag hosp : String) (camt : Raw) (row : CustomerRow)
    (ca : ℚ) (a pc : ℤ)
    (hrow : lookupProfile st.customer_data uid cid nm = some row)
    (hca : camt.toFloat = some ca)
    (ha : row.age.toInt = some a)
    (hpc : row.previous_claims.toInt = some pc) :
    predict_fraud encs model false st uid cid nm diag hosp camt =
      (Outcome.sinkFailure, st) := by
  unfold predict_fraud
  simp only [hrow, hca, ha, hpc]
  rfl

/-- Witness for C8 (amended) at a concrete failing-sink call. -/
theorem C8_sink_failure_raises_witness :
    predict_fraud demoEncs (fun _ => some (5/100)) false demoState
        1 "CU1" "Alice" "Flu" "Private" (Raw.num 2000) =
      (Outcome.sinkFailure, demoState) :=
  C8_sink_failure_raises demoEncs (fun _ => some (5/100)) demoState
    1 "CU1" "Alice" "Flu" "Private" (Raw.num 2000) demoRow 2000 40 6
    (by decide) rfl (by decide) (by decide)

/-- C9: once the profile is found, a claim-amount or previous-claims
value that numeric coercion rejects makes the call fail with the
invalid-claim-data outcome — an outcome distinct from profile-not-found —
scoring is aborted and nothing is persisted. -/
theorem C9_uncoercible_fields_abort (encs : Encoders)
    (model : Features → Option ℚ) (sinkOk : Bool) (st : State) (uid : ℤ)
    (cid nm diag hosp : String) (camt : Raw) (row : CustomerRow)
    (hrow : lookupProfile st.customer_data uid cid nm = some row)
    (hbad : camt.toFloat = none ∨ row.previous_claims.toInt = none) :
    predict_fraud encs model sinkOk st uid cid nm diag hosp camt =
      (Outcome.invalidClaimData, st) ∧
    Outcome.invalidClaimData ≠ Outcome.profileNotFound := by
  refine ⟨?_, fun h => Outcome.noConfusion h⟩
  unfold predict_fraud
  rcases hbad with hb | hb
  · simp only [hrow, hb]
  · cases hca : camt.toFloat with
    | none => simp only [hrow, hca]
    | some ca =>
      cases ha : row.age.toInt with
      | none => simp only [hrow, hca, ha]
      | some a => simp only [hrow, hca, ha, hb]

/-- Witness for C9: a non-numeric claim amount aborts the concrete
call with the invalid-claim-data outcome. -/
theorem C9_uncoercible_fields_abort_witness :
    predict_fraud demoEncs (fun _ => some (5/100)) true demoState
        1 "CU1" "Alice" "Flu" "Government" (Raw.nonNumeric "12a.b") =
      (Outcome.invalidClaimData, demoState) ∧
    Outcome.invalidClaimData ≠ Outcome.profileNotFound :=
  C9_uncoercible_fields_abort demoEncs (fun _ => some (5/100)) true demoState
    1 "CU1" "Alice" "Flu" "Government" (Raw.nonNumeric "12a.b") demoRow
    (by decide) (Or.inl rfl)

/-- C10: every rule delta is non-negative, so a successful call's
returned clamped probability is at least `min 1 base`, where `base` is
the model's base probability for the encoded features — the rule engine
can only raise or preserve the score. -/
theorem C10_rules_only_raise_score (encs : Encoders)
    (model : Features → Option ℚ) (sinkOk : Bool) (st : State) (uid : ℤ)
    (cid nm diag hosp : String) (camt : Raw) (v : String) (p : ℚ)
    (row : CustomerRow) (ca : ℚ) (a pc : ℤ)
    (hok : (predict_fraud encs model sinkOk st uid cid nm diag hosp camt).1 =
      Outcome.ok v p)
    (hrow : lookupProfile st.customer_data uid cid nm = some row)
    (hca : camt.toFloat = some ca)
    (ha : row.age.toInt = some a)
    (hpc : row.previous_claims.toInt = some pc) :
    min 1 ((model (preprocess_input encs ca a diag hosp pc)).getD 0) ≤ p := by
  obtain ⟨row2, ca2, a2, pc2, hrow2, hca2, ha2, hpc2, _, hp, _⟩ :=
    predict_fraud_ok_elim encs model sinkOk st uid cid nm diag hosp camt
      v p hok
  obtain rfl : row = row2 := Option.some.inj (hrow.symm.trans hrow2)
  obtain rfl : ca = ca2 := Option.some.inj (hca.symm.trans hca2)
  obtain rfl : a = a2 := Option.some.inj (ha.symm.trans ha2)
  obtain rfl : pc = pc2 := Option.some.inj (hpc.symm.trans hpc2)
  rw [hp]
  exact min_one_le_clamp01 _ _ (applyRules_ge_base _ _ _ _ _)

/-- Witness for C10 on a concrete call with base probability 0.02 where
only the frequent-claims rule fires, returning probability 0.17. -/
theorem C10_rules_only_raise_score_witness :
    min 1 (((fun _ => some ((2:ℚ)/100))
        (preprocess_input demoEncs 1000 40 "Flu" "Government" 6)).getD 0) ≤
      17/100 := by
  have hok : (predict_fraud demoEncs (fun _ => some (2/100)) true demoState
      1 "CU1" "Alice" "Flu" "Government" (Raw.num 1000)).1 =
      Outcome.ok "Legitimate" (17/100) := by
    rw [predict_fraud_eq_of_found demoEncs (fun _ => some (2/100)) demoState
      1 "CU1" "Alice" "Flu" "Government" (Raw.num 1000) demoRow 1000 40 6
      (by decide) rfl (by decide) (by decide)]
    dsimp only
    rw [Option.getD_some]
    simp only [applyRules]
    rw [if_neg (by norm_num : ¬ (1000:ℚ) > 300000),
      if_pos (by norm_num : (6:ℤ) > 5),
      if_neg (by decide : ¬ lower "Flu" ∈ ["cancer", "heart disease"]),
      if_neg (by decide : ¬ lower "Government" = "private")]
    have hc : clamp01 (2/100 + 15/100) = 17/100 := by
      unfold clamp01
      rw [min_eq_right (by norm_num), max_eq_right (by norm_num)]
      norm_num
    rw [hc]
    unfold verdictOf
    rw [if_neg (by norm_num : ¬ (17:ℚ)/100 > 35/100)]
  exact C10_rules_only_raise_score demoEncs (fun _ => some (2/100)) true
    demoState 1 "CU1" "Alice" "Flu" "Government" (Raw.num 1000)
    "Legitimate" (17/100) demoRow 1000 40 6 hok (by decide) rfl
    (by decide) (by decide)

end FraudDetection
